import Mathlib

/-!
Shallow embedding of `download_dataset.py`, a bulk tile downloader:
manifest resolution (`collect_tasks`, `read_url_map`, `split_from_manifest`),
the remote size probe (`get_remote_size`), the download worker
(`download_task`) and the orchestrator's failure-log step.

Python string primitives (`strip`, `lower`, `split`, `rsplit`, `replace`,
`startswith`, `endswith`, `os.path.join`) are embedded over `String.data`
(lists of characters).
-/

namespace DownloadDataset

/-- Python `str.isspace` characters relevant to `str.strip()`. -/
def pyWS (c : Char) : Bool :=
  c = ' ' || c = '\t' || c = '\n' || c = '\r' || c = Char.ofNat 11 || c = Char.ofNat 12

/-- Python `line.strip()`. -/
def pyStrip (s : String) : String :=
  ⟨((s.data.dropWhile pyWS).reverse.dropWhile pyWS).reverse⟩

/-- Python `s.lower()` (character-wise lowering, the ASCII case used here). -/
def pyLower (s : String) : String := ⟨s.data.map Char.toLower⟩

/-- Python `line.split(",", 1)[0]`: the substring before the first comma. -/
def takeBeforeComma (s : String) : String := ⟨s.data.takeWhile (· ≠ ',')⟩

/-- Python `url.rsplit("/", 1)[-1]`: the substring after the last slash. -/
def lastSlashSegment (s : String) : String :=
  ⟨(s.data.reverse.takeWhile (· ≠ '/')).reverse⟩

/-- Python `region.replace(".", "")`. -/
def removeDots (s : String) : String := ⟨s.data.filter (· ≠ '.')⟩

/-- Python `sub in s` on strings. -/
def pyContains (s sub : String) : Bool := decide (sub.data <:+: s.data)

/-- Python `s.endswith (t)`. -/
def pyEndsWith (s t : String) : Bool := decide (t.data <:+ s.data)

/-- Python `s.startswith (t)`. -/
def pyStartsWith (s t : String) : Bool := decide (t.data <+: s.data)

/-- `posixpath.join` for one extra component. -/
def joinPath (a b : String) : String :=
  if pyStartsWith b "/" then b
  else if a = "" || pyEndsWith a "/" then a ++ b
  else a ++ "/" ++ b

/-- `int(s)` as used on a `Content-Length` header: strip, optional sign,
decimal digits; `none` models the caught `ValueError`. -/
def pyInt? (s : String) : Option Int :=
  let t := (pyStrip s).data
  let core : List Char → Option Nat := fun ds =>
    if ds ≠ [] ∧ ds.all Char.isDigit then
      some (ds.foldl (fun n c => 10 * n + (c.toNat - '0'.toNat)) 0)
    else none
  match t with
  | '-' :: ds => (core ds).map (fun n => -(n : Int))
  | '+' :: ds => (core ds).map (fun n => (n : Int))
  | ds => (core ds).map (fun n => (n : Int))

/-- One download task as built by `collect_tasks` (dict with keys
`region`, `url`, `output_path`). -/
structure Task where
  region : String
  url : String
  output_path : String
deriving DecidableEq, Repr

/-- The exceptions caught by `download_task`'s `except` clause:
`urllib.error.URLError`, `IOError` and `TimeoutError`. -/
inductive PyErr where
  | urlError (msg : String)
  | ioError (msg : String)
  | timeoutError (msg : String)
deriving DecidableEq, Repr

/-- Python `str(exc)`. -/
def PyErr.str : PyErr → String
  | .urlError m => m
  | .ioError m => m
  | .timeoutError m => m

/-- Filesystem state relevant to one task: size of the file at the
destination path, size of the file at the `.part` staging path, and whether
`os.makedirs` was invoked on the destination's parent directory. -/
structure FS where
  dest : Option Nat
  temp : Option Nat
  dirMade : Bool
deriving DecidableEq, Repr

/-- The remote/OS behaviour one `download_task` call observes.
`head` is the HEAD response's `Content-Length` header (`.error ()` is a
`urllib.error.URLError` raised by the probe); `staleRemoveErr` is an error
raised by `os.remove` on a stale staging file; `openErr` is an error while
opening or streaming the body; `bodyLen` the full body length when the
stream completes; `renameErr` an error raised by `os.replace`. -/
structure Env where
  head : Except Unit (Option String)
  staleRemoveErr : Option PyErr
  openErr : Option PyErr
  bodyLen : Nat
  renameErr : Option PyErr
deriving Repr

/-- `get_remote_size`: HEAD request, read `Content-Length`, parse it;
a missing or unparsable header yields `none`; a `URLError` propagates. -/
def get_remote_size (head : Except Unit (Option String)) : Except Unit (Option Int) :=
  match head with
  | .error e => .error e
  | .ok none => .ok none
  | .ok (some length) => .ok (pyInt? length)

/-- The remote size `download_task` ends up with: a `URLError` from the
probe is caught and degrades to `None`. -/
def remoteOf (env : Env) : Option Int :=
  match get_remote_size env.head with
  | .ok o => o
  | .error _ => none

/-- Outcome of one `download_task` call: final filesystem state, the
failure appended to the shared list (if any), an exception that escaped the
function (if any), whether the early skip-return was taken, and whether a
body transfer was attempted. -/
structure TaskResult where
  fs : FS
  failure : Option (String × String × String)
  unhandled : Option PyErr
  skipped : Bool
  downloaded : Bool
deriving DecidableEq, Repr

/-- The resumability skip test (lines 145-150): the file exists and either
the remote size is unknown and the local size is positive, or the remote
size is known and equals the local size. -/
def skipCheck (dest : Option Nat) (remote : Option Int) : Bool :=
  match dest, remote with
  | some l, none => decide (0 < l)
  | some l, some s => decide ((l : Int) = s)
  | none, _ => false

/-- The size-mismatch message raised as `IOError` (line 167). -/
def mismatchMsg (expected : Int) (got : Nat) : String :=
  "size mismatch: expected " ++ toString expected ++ " got " ++ toString (got : Int)

/-- `download_task`: makedirs, probe (URLError caught), skip check, stale
staging removal (outside the `try`), then the `try` block: stream body to
staging, size check, rename; caught exceptions append one failure. -/
def download_task (task : Task) (env : Env) (fs0 : FS) : TaskResult :=
  let fs1 : FS := { fs0 with dirMade := true }
  let remote_size := remoteOf env
  if skipCheck fs1.dest remote_size then
    { fs := fs1, failure := none, unhandled := none, skipped := true, downloaded := false }
  else
    match fs1.temp, env.staleRemoveErr with
    | some _, some e =>
      -- `os.remove` on the stale staging file raised: no handler here.
      { fs := fs1, failure := none, unhandled := some e, skipped := false, downloaded := false }
    | _, _ =>
      let fs2 : FS := { fs1 with temp := none }
      match env.openErr with
      | some e =>
        { fs := fs2, failure := some (task.region, task.url, e.str),
          unhandled := none, skipped := false, downloaded := true }
      | none =>
        let fs3 : FS := { fs2 with temp := some env.bodyLen }
        match remote_size with
        | some s =>
          if (env.bodyLen : Int) ≠ s then
            { fs := { fs3 with temp := none },
              failure := some (task.region, task.url, mismatchMsg s env.bodyLen),
              unhandled := none, skipped := false, downloaded := true }
          else
            match env.renameErr with
            | some e =>
              { fs := { fs3 with temp := none },
                failure := some (task.region, task.url, e.str),
                unhandled := none, skipped := false, downloaded := true }
            | none =>
              { fs := { fs3 with dest := some env.bodyLen, temp := none },
                failure := none, unhandled := none, skipped := false, downloaded := true }
        | none =>
          match env.renameErr with
          | some e =>
            { fs := { fs3 with temp := none },
              failure := some (task.region, task.url, e.str),
              unhandled := none, skipped := false, downloaded := true }
          | none =>
            { fs := { fs3 with dest := some env.bodyLen, temp := none },
              failure := none, unhandled := none, skipped := false, downloaded := true }

/-- `read_url_map` over the file's lines: strip each line, skip empty ones,
key the URL by its last slash segment; a later duplicate key overwrites. -/
def read_url_map (lines : List String) : String → Option String :=
  lines.foldl
    (fun m line =>
      let url := pyStrip line
      if url = "" then m
      else fun k => if k = lastSlashSegment url then some url else m k)
    (fun _ => none)

/-- `split_from_manifest`: substring search in the lowercased name,
train before val before test. -/
def split_from_manifest (filename : String) : Option String :=
  let lowered := pyLower filename
  if pyContains lowered "train" then some "train"
  else if pyContains lowered "val" then some "val"
  else if pyContains lowered "test" then some "test"
  else none

/-- One region directory: its name and its files in `os.listdir` order,
each with the file's lines. -/
structure RegionModel where
  name : String
  files : List (String × List String)
deriving Repr

/-- The source tree: the `DSMs` and `DTMs` type roots (absent directories
are `none`), each a list of region directories. -/
structure SourceModel where
  dsms : Option (List RegionModel)
  dtms : Option (List RegionModel)
deriving Repr

/-- Destination of a task (lines 104-107):
`os.path.join(output_root, split, dtype, region_nodots ++ "_" ++ tile)`. -/
def outputPathFor (output_root split dtype region tile : String) : String :=
  joinPath (joinPath (joinPath output_root split) dtype) (removeDots region ++ "_" ++ tile)

/-- The body of `collect_tasks`'s innermost loop (lines 98-117): one raw
manifest line either extends `tasks` or extends `missing`, or is dropped
when blank. -/
def processLine (region dtype split : String) (url_map : String → Option String)
    (output_root : String) (acc : List Task × List (String × String))
    (rawLine : String) : List Task × List (String × String) :=
  let line := pyStrip rawLine
  if line = "" then acc
  else
    let tile_name := takeBeforeComma line
    match url_map tile_name with
    | none => (acc.1, acc.2 ++ [(region, tile_name)])
    | some url =>
      (acc.1 ++ [⟨region, url, outputPathFor output_root split dtype region tile_name⟩], acc.2)

/-- One region (lines 78-117): pick the first `.csv` file (skip the region
when none), build the URL map, then fold every classified `.txt` file. -/
def processRegion (dtype output_root : String) (acc : List Task × List (String × String))
    (r : RegionModel) : List Task × List (String × String) :=
  let csv_files := r.files.filter (fun f => pyEndsWith (pyLower f.1) ".csv")
  match csv_files with
  | [] => acc
  | (_, csvLines) :: _ =>
    let url_map := read_url_map csvLines
    let manifest_files := r.files.filter (fun f => pyEndsWith (pyLower f.1) ".txt")
    manifest_files.foldl
      (fun acc m =>
        match split_from_manifest m.1 with
        | none => acc
        | some split => m.2.foldl (processLine r.name dtype split url_map output_root) acc)
      acc

/-- `sorted()` on region names (insertion sort, lexicographic `≤`). -/
def insertRegion (r : RegionModel) : List RegionModel → List RegionModel
  | [] => [r]
  | x :: xs => if r.name ≤ x.name then r :: x :: xs else x :: insertRegion r xs

def sortRegions (l : List RegionModel) : List RegionModel :=
  l.foldr insertRegion []

/-- One type root (lines 70-77): absent directory contributes nothing;
otherwise the regions are visited in sorted name order. -/
def processRoot (dtype output_root : String) (acc : List Task × List (String × String)) :
    Option (List RegionModel) → List Task × List (String × String)
  | none => acc
  | some regions => (sortRegions regions).foldl (processRegion dtype output_root) acc

/-- `collect_tasks`: `DSMs` root first (`dsm` type tag), then `DTMs`. -/
def collect_tasks (src : SourceModel) (output_root : String) :
    List Task × List (String × String) :=
  processRoot "dtm" output_root (processRoot "dsm" output_root ([], []) src.dsms) src.dtms

/-- Lines 189-192: missing URLs are appended to the failure list as
`(region, "MISSING_URL:" ++ tile, "not found")`. -/
def append_missing (failures : List (String × String × String))
    (missing : List (String × String)) : List (String × String × String) :=
  failures ++ missing.map (fun rt => (rt.1, "MISSING_URL:" ++ rt.2, "not found"))

/-- One log line (line 197): tab-separated region, identifier, reason. -/
def format_failure_line (f : String × String × String) : String :=
  f.1 ++ "\t" ++ f.2.1 ++ "\t" ++ f.2.2 ++ "\n"

/-- Lines 194-200: when failures exist the log file is opened with mode
`"w"` (overwriting) and one line per failure is written; with no failures
the log file is not touched, so its prior state persists. -/
def write_failure_log (failures : List (String × String × String))
    (oldLog : Option String) : Option String :=
  if failures = [] then oldLog
  else some (String.join (failures.map format_failure_line))

/-- The scenario of §8: region `Alpha.1` with one URL-map line and one
`train.txt` line. -/
def alphaModel : SourceModel :=
  { dsms := some
      [⟨"Alpha.1", [("urls.csv", ["http://host/tile_001.tif"]),
                    ("train.txt", ["tile_001.tif,extra"])]⟩],
    dtms := none }

lemma skipCheck_eq_true_iff (dest : Option Nat) (remote : Option Int) :
    skipCheck dest remote = true ↔
      ∃ l, dest = some l ∧ ((remote = none ∧ 0 < l) ∨ remote = some (l : Int)) := by
  cases dest <;> cases remote <;> simp [skipCheck]
  all_goals omega

lemma download_task_skipped_eq (task : Task) (env : Env) (fs0 : FS) :
    (download_task task env fs0).skipped = skipCheck fs0.dest (remoteOf env) := by
  unfold download_task
  cases h : skipCheck fs0.dest (remoteOf env) <;>
    simp only [h] <;>
    (repeat' split) <;> simp_all

lemma download_task_of_skip (task : Task) (env : Env) (fs0 : FS)
    (h : skipCheck fs0.dest (remoteOf env) = true) :
    download_task task env fs0 =
      { fs := { fs0 with dirMade := true }, failure := none, unhandled := none,
        skipped := true, downloaded := false } := by
  unfold download_task
  simp only [h, if_true]

/-- Claim C2: the worker skips (returns with no transfer, no failure, no
unhandled exception) exactly when a file exists at the destination and
either the remote size is unknown and the local size is positive, or the
remote size is known and equals the local size; otherwise it proceeds to
the download attempt (a transfer happens unless an exception escapes on
the way). -/
theorem download_task_skip_iff (task : Task) (env : Env) (fs0 : FS) :
    ((download_task task env fs0).skipped = true ↔
      ∃ l, fs0.dest = some l ∧
        ((remoteOf env = none ∧ 0 < l) ∨ remoteOf env = some (l : Int)))
    ∧ ((download_task task env fs0).skipped = true →
        (download_task task env fs0).failure = none ∧
        (download_task task env fs0).unhandled = none ∧
        (download_task task env fs0).downloaded = false)
    ∧ ((download_task task env fs0).skipped = false →
        (download_task task env fs0).downloaded = true ∨
        (download_task task env fs0).unhandled.isSome = true) := by
  refine ⟨?_, ?_, ?_⟩
  · rw [download_task_skipped_eq]
    exact skipCheck_eq_true_iff _ _
  · intro h
    rw [download_task_skipped_eq] at h
    rw [download_task_of_skip task env fs0 h]
    exact ⟨rfl, rfl, rfl⟩
  · intro h
    rw [download_task_skipped_eq] at h
    unfold download_task
    simp only [h]
    (repeat' split) <;> simp_all

/-- Witness for C2: a file of the probed size is skipped. -/
theorem download_task_skip_iff_w :
    (download_task ⟨"R", "u", "p"⟩ ⟨Except.ok (some "5"), none, none, 5, none⟩
      ⟨some 5, none, false⟩).skipped = true :=
  (download_task_skip_iff ⟨"R", "u", "p"⟩ ⟨Except.ok (some "5"), none, none, 5, none⟩
      ⟨some 5, none, false⟩).1.mpr ⟨5, rfl, Or.inr (by decide)⟩

/-- Claim C7: a transport failure (`URLError`) while probing the remote
size makes the worker behave exactly as if the probe had reported an
unknown size: no failure from the probe, and the skip check and download
attempt still run. -/
theorem probe_failure_degrades_to_unknown (task : Task) (env : Env) (fs0 : FS)
    (e : Unit) (h : env.head = .error e) :
    download_task task env fs0 = download_task task { env with head := .ok none } fs0 := by
  have h1 : remoteOf env = none := by simp [remoteOf, get_remote_size, h]
  have h2 : remoteOf { env with head := Except.ok none } = none := rfl
  simp only [download_task]
  rw [h1, h2]

/-- Witness for C7 at a concrete failing probe. -/
theorem probe_failure_degrades_to_unknown_w :
    download_task ⟨"R", "u", "p"⟩ ⟨Except.error (), none, none, 4, none⟩ ⟨none, none, false⟩
      = download_task ⟨"R", "u", "p"⟩ ⟨Except.ok none, none, none, 4, none⟩ ⟨none, none, false⟩ :=
  probe_failure_degrades_to_unknown _ ⟨Except.error (), none, none, 4, none⟩ _ () rfl

/-- Claim C10: the worker marks the destination's parent directory as
created on every run, and on a skipped task the filesystem is otherwise
untouched: the directory can come to exist with no file written. -/
theorem download_task_makes_parent_dir (task : Task) (env : Env) (fs0 : FS) :
    (download_task task env fs0).fs.dirMade = true
    ∧ ((download_task task env fs0).skipped = true →
        (download_task task env fs0).fs = { fs0 with dirMade := true }) := by
  constructor
  · unfold download_task
    cases h : skipCheck fs0.dest (remoteOf env) <;>
      simp only [h] <;> (repeat' split) <;> simp_all
  · intro h
    rw [download_task_skipped_eq] at h
    rw [download_task_of_skip task env fs0 h]

/-- Witness for C10: the directory flag is set on a skipped task. -/
theorem download_task_makes_parent_dir_w :
    (download_task ⟨"R", "u", "p"⟩ ⟨Except.ok (some "5"), none, none, 5, none⟩
        ⟨some 5, none, false⟩).fs = { dest := some 5, temp := none, dirMade := true } :=
  (download_task_makes_parent_dir ⟨"R", "u", "p"⟩ ⟨Except.ok (some "5"), none, none, 5, none⟩
      ⟨some 5, none, false⟩).2 (by decide)

lemma lower_fixes_infix (pat s : String) (hp : pat.data.map Char.toLower = pat.data)
    (h : pat.data <:+: s.data) : pyContains (pyLower s) pat = true := by
  have h2 := List.IsInfix.map Char.toLower h
  rw [hp] at h2
  exact decide_eq_true h2

/-- Claim C8: `split_from_manifest` tests the lowercased name for the
substrings train, val, test in that order and returns the first hit
(`none` when none occurs); in particular a name containing both "train"
and "val" classifies as train. -/
theorem split_from_manifest_priority (filename : String) :
    (pyContains (pyLower filename) "train" = true →
        split_from_manifest filename = some "train")
    ∧ (pyContains (pyLower filename) "train" = false →
       pyContains (pyLower filename) "val" = true →
        split_from_manifest filename = some "val")
    ∧ (pyContains (pyLower filename) "train" = false →
       pyContains (pyLower filename) "val" = false →
       pyContains (pyLower filename) "test" = true →
        split_from_manifest filename = some "test")
    ∧ (pyContains (pyLower filename) "train" = false →
       pyContains (pyLower filename) "val" = false →
       pyContains (pyLower filename) "test" = false →
        split_from_manifest filename = none)
    ∧ ("train".data <:+: filename.data → "val".data <:+: filename.data →
        split_from_manifest filename = some "train") := by
  refine ⟨?_, ?_, ?_, ?_, ?_⟩
  · intro h1
    simp [split_from_manifest, h1]
  · intro h1 h2
    simp [split_from_manifest, h1, h2]
  · intro h1 h2 h3
    simp [split_from_manifest, h1, h2, h3]
  · intro h1 h2 h3
    simp [split_from_manifest, h1, h2, h3]
  · intro h1 _
    simp [split_from_manifest, lower_fixes_infix "train" filename (by decide) h1]

/-- Witness for C8: "ABC_train_val.txt" classifies as train. -/
theorem split_from_manifest_priority_w :
    split_from_manifest "ABC_train_val.txt" = some "train" :=
  (split_from_manifest_priority "ABC_train_val.txt").2.2.2.2 (by decide) (by decide)

/-- Counterexample to C5 as stated: with zero failures the log file is
not removed, so a log left by an earlier run persists instead of being
absent. -/
theorem write_failure_log_stale_cex :
    write_failure_log [] (some "R\tMISSING_URL:t\tnot found\n") ≠ none ∧
    write_failure_log [] (some "R\tMISSING_URL:t\tnot found\n")
      = some "R\tMISSING_URL:t\tnot found\n" := by
  decide

/-- Claim C5 (amended): when failures exist the log is exactly one
tab-separated line per failure, replacing any previous content; with zero
failures the log file is simply not written, so its previous state (absent
or not) persists. -/
theorem write_failure_log_spec (failures : List (String × String × String))
    (old : Option String) :
    (failures ≠ [] → write_failure_log failures old
        = some (String.join (failures.map format_failure_line)))
    ∧ (failures = [] → write_failure_log failures old = old) := by
  constructor <;> intro h <;> simp [write_failure_log, h]

/-- Witness for C5's amended theorem at one concrete failure. -/
theorem write_failure_log_spec_w :
    write_failure_log [("R", "u", "r")] none = some "R\tu\tr\n" := by
  rw [(write_failure_log_spec [("R", "u", "r")] none).1 (by decide)]
  decide

/-- Counterexample to C3 as stated: an I/O error while removing a stale
staging file (which happens outside the `try` block) escapes the worker
with no failure recorded. -/
theorem stale_remove_propagates_cex :
    (download_task ⟨"R", "http://h/x", "p"⟩
        ⟨Except.ok none, some (PyErr.ioError "Permission denied"), none, 3, none⟩
        ⟨none, some 4, false⟩).unhandled = some (PyErr.ioError "Permission denied")
    ∧ (download_task ⟨"R", "http://h/x", "p"⟩
        ⟨Except.ok none, some (PyErr.ioError "Permission denied"), none, 3, none⟩
        ⟨none, some 4, false⟩).failure = none := by
  decide

/-- Counterexample to C4 as stated: a size-mismatched transfer leaves a
pre-existing file at the destination path (only the staging file is
removed), so "leaves no file at the final destination path" fails. -/
theorem size_mismatch_dest_remains_cex :
    (download_task ⟨"R", "http://h/x", "p"⟩ ⟨Except.ok (some "10"), none, none, 7, none⟩
        ⟨some 5, none, false⟩).failure
      = some ("R", "http://h/x", "size mismatch: expected 10 got 7")
    ∧ (download_task ⟨"R", "http://h/x", "p"⟩ ⟨Except.ok (some "10"), none, none, 7, none⟩
        ⟨some 5, none, false⟩).fs.dest = some 5
    ∧ (download_task ⟨"R", "http://h/x", "p"⟩ ⟨Except.ok (some "10"), none, none, 7, none⟩
        ⟨some 5, none, false⟩).downloaded = true := by
  decide

/-- Counterexample to C6 as stated: a task whose remote size is unknown
and whose body is empty completes on the first run with a 0-byte file and
is downloaded again (not skipped) on the second run. -/
theorem second_run_redownload_cex :
    (download_task ⟨"R", "u", "p"⟩ ⟨Except.ok none, none, none, 0, none⟩
        ⟨none, none, false⟩).failure = none
    ∧ (download_task ⟨"R", "u", "p"⟩ ⟨Except.ok none, none, none, 0, none⟩
        ⟨none, none, false⟩).unhandled = none
    ∧ (download_task ⟨"R", "u", "p"⟩ ⟨Except.ok none, none, none, 0, none⟩
        (download_task ⟨"R", "u", "p"⟩ ⟨Except.ok none, none, none, 0, none⟩
          ⟨none, none, false⟩).fs).downloaded = true := by
  decide

lemma download_task_stale_fault (task : Task) (env : Env) (fs0 : FS)
    (hs : skipCheck fs0.dest (remoteOf env) = false)
    (t : Nat) (e : PyErr) (ht : fs0.temp = some t) (he : env.staleRemoveErr = some e) :
    download_task task env fs0 =
      { fs := { fs0 with dirMade := true }, failure := none, unhandled := some e,
        skipped := false, downloaded := false } := by
  unfold download_task
  simp only [hs, ht, he]
  simp

lemma download_task_open_fault (task : Task) (env : Env) (fs0 : FS)
    (hs : skipCheck fs0.dest (remoteOf env) = false)
    (hstale : fs0.temp = none ∨ env.staleRemoveErr = none)
    (e : PyErr) (he : env.openErr = some e) :
    download_task task env fs0 =
      { fs := { fs0 with temp := none, dirMade := true },
        failure := some (task.region, task.url, e.str),
        unhandled := none, skipped := false, downloaded := true } := by
  unfold download_task
  rcases hstale with h | h
  · simp only [hs, h, he]
    simp
  · cases ht : fs0.temp <;> simp only [hs, h, he, ht] <;> simp

lemma download_task_mismatch (task : Task) (env : Env) (fs0 : FS)
    (hs : skipCheck fs0.dest (remoteOf env) = false)
    (hstale : fs0.temp = none ∨ env.staleRemoveErr = none)
    (hopen : env.openErr = none)
    (s : Int) (hr : remoteOf env = some s) (hm : (env.bodyLen : Int) ≠ s) :
    download_task task env fs0 =
      { fs := { fs0 with temp := none, dirMade := true },
        failure := some (task.region, task.url, mismatchMsg s env.bodyLen),
        unhandled := none, skipped := false, downloaded := true } := by
  rw [hr] at hs
  unfold download_task
  rcases hstale with h | h
  · simp only [hr, hs, h, hopen]
    simp [hm]
  · cases ht : fs0.temp <;> simp only [hr, hs, h, hopen, ht] <;> simp [hm]

lemma download_task_rename_fault (task : Task) (env : Env) (fs0 : FS)
    (hs : skipCheck fs0.dest (remoteOf env) = false)
    (hstale : fs0.temp = none ∨ env.staleRemoveErr = none)
    (hopen : env.openErr = none)
    (hok : remoteOf env = none ∨ remoteOf env = some (env.bodyLen : Int))
    (e : PyErr) (he : env.renameErr = some e) :
    download_task task env fs0 =
      { fs := { fs0 with temp := none, dirMade := true },
        failure := some (task.region, task.url, e.str),
        unhandled := none, skipped := false, downloaded := true } := by
  rcases hstale with h | h <;> rcases hok with hr | hr <;> rw [hr] at hs <;>
      unfold download_task
  · simp only [hr, hs, h, hopen, he]
    simp
  · simp only [hr, hs, h, hopen, he]
    simp
  · cases ht : fs0.temp <;> simp only [hr, hs, h, hopen, he, ht] <;> simp
  · cases ht : fs0.temp <;> simp only [hr, hs, h, hopen, he, ht] <;> simp

lemma download_task_success (task : Task) (env : Env) (fs0 : FS)
    (hs : skipCheck fs0.dest (remoteOf env) = false)
    (hstale : fs0.temp = none ∨ env.staleRemoveErr = none)
    (hopen : env.openErr = none)
    (hok : remoteOf env = none ∨ remoteOf env = some (env.bodyLen : Int))
    (he : env.renameErr = none) :
    download_task task env fs0 =
      { fs := { dest := some env.bodyLen, temp := none, dirMade := true },
        failure := none, unhandled := none, skipped := false, downloaded := true } := by
  rcases hstale with h | h <;> rcases hok with hr | hr <;> rw [hr] at hs <;>
      unfold download_task
  · simp only [hr, hs, h, hopen, he]
    simp
  · simp only [hr, hs, h, hopen, he]
    simp
  · cases ht : fs0.temp <;> simp only [hr, hs, h, hopen, he, ht] <;> simp
  · cases ht : fs0.temp <;> simp only [hr, hs, h, hopen, he, ht] <;> simp

/-- Whether the `try` block of `download_task` raises: a failure opening
or streaming the body, a size mismatch against a known remote size, or a
failure of the final rename. -/
def tryFaults (env : Env) : Bool :=
  env.openErr.isSome ||
    (match remoteOf env with
     | some s => decide ((env.bodyLen : Int) ≠ s) || env.renameErr.isSome
     | none => env.renameErr.isSome)

/-- The reason string the `except` handler records for the first fault the
`try` block hits: `str(exc)` of the open/stream failure, else the
size-mismatch `IOError` message, else `str(exc)` of the rename failure;
`none` when the `try` block completes. -/
def tryFaultReason (env : Env) : Option String :=
  match env.openErr with
  | some e => some e.str
  | none =>
    match remoteOf env with
    | some s =>
      if (env.bodyLen : Int) ≠ s then some (mismatchMsg s env.bodyLen)
      else env.renameErr.map PyErr.str
    | none => env.renameErr.map PyErr.str

/-- Claim C3 (amended): provided the stale-staging-file removal itself
does not fault (that removal sits outside the `try` block, so its faults
do escape - see the counterexample), the worker never lets an exception
escape, and any transport, I/O, or timeout failure during the body
transfer, size check, or rename of a non-skipped task yields exactly one
recorded failure carrying the underlying reason - `str(exc)` of the
stream or rename fault, or the size-mismatch message - with the staging
file removed. -/
theorem download_task_handles_transfer_failures (task : Task) (env : Env) (fs0 : FS)
    (hstale : fs0.temp = none ∨ env.staleRemoveErr = none) :
    (download_task task env fs0).unhandled = none
    ∧ ((download_task task env fs0).skipped = false → tryFaults env = true →
        (tryFaultReason env).isSome = true
          ∧ (download_task task env fs0).failure
              = (tryFaultReason env).map (fun r => (task.region, task.url, r))
          ∧ (download_task task env fs0).fs.temp = none) := by
  cases hs : skipCheck fs0.dest (remoteOf env)
  case true =>
    rw [download_task_of_skip task env fs0 hs]
    exact ⟨rfl, fun h _ => Bool.noConfusion h⟩
  case false =>
    cases ho : env.openErr with
    | some e =>
      rw [download_task_open_fault task env fs0 hs hstale e ho]
      refine ⟨rfl, fun _ _ => ⟨?_, ?_, rfl⟩⟩ <;> simp [tryFaultReason, ho]
    | none =>
      cases hr : remoteOf env with
      | some s =>
        by_cases hm : (env.bodyLen : Int) = s
        · cases hre : env.renameErr with
          | some e =>
            rw [download_task_rename_fault task env fs0 hs hstale ho
              (Or.inr (by rw [hm]; exact hr)) e hre]
            refine ⟨rfl, fun _ _ => ⟨?_, ?_, rfl⟩⟩ <;>
              simp [tryFaultReason, ho, hr, hre, hm]
          | none =>
            rw [download_task_success task env fs0 hs hstale ho
              (Or.inr (by rw [hm]; exact hr)) hre]
            refine ⟨rfl, fun _ hf => absurd hf ?_⟩
            simp [tryFaults, ho, hr, hre, hm]
        · rw [download_task_mismatch task env fs0 hs hstale ho s hr hm]
          refine ⟨rfl, fun _ _ => ⟨?_, ?_, rfl⟩⟩ <;>
            simp [tryFaultReason, ho, hr, hm]
      | none =>
        cases hre : env.renameErr with
        | some e =>
          rw [download_task_rename_fault task env fs0 hs hstale ho (Or.inl hr) e hre]
          refine ⟨rfl, fun _ _ => ⟨?_, ?_, rfl⟩⟩ <;>
            simp [tryFaultReason, ho, hr, hre]
        | none =>
          rw [download_task_success task env fs0 hs hstale ho (Or.inl hr) hre]
          refine ⟨rfl, fun _ hf => absurd hf ?_⟩
          simp [tryFaults, ho, hr, hre]

/-- Witness for C3's amended theorem: a streaming failure is contained and
recorded with its own message as the reason. -/
theorem download_task_handles_transfer_failures_w :
    (download_task ⟨"R", "u", "p"⟩
        ⟨Except.ok none, none, some (PyErr.urlError "timed out"), 3, none⟩
        ⟨none, none, false⟩).unhandled = none
    ∧ (download_task ⟨"R", "u", "p"⟩
        ⟨Except.ok none, none, some (PyErr.urlError "timed out"), 3, none⟩
        ⟨none, none, false⟩).failure = some ("R", "u", "timed out") := by
  have h := download_task_handles_transfer_failures ⟨"R", "u", "p"⟩
    ⟨Except.ok none, none, some (PyErr.urlError "timed out"), 3, none⟩
    ⟨none, none, false⟩ (Or.inl rfl)
  refine ⟨h.1, ?_⟩
  rw [(h.2 (by decide) (by decide)).2.1]
  decide

/-- Claim C4 (amended): a non-skipped transfer that completes with a size
differing from the known probed size removes the staging file, records
exactly one failure with the size-mismatch reason, escapes no exception,
and leaves the destination path exactly as it was (no new file; a
pre-existing file remains, per the counterexample). -/
theorem size_mismatch_outcome (task : Task) (env : Env) (fs0 : FS)
    (hstale : fs0.temp = none ∨ env.staleRemoveErr = none)
    (hopen : env.openErr = none)
    (s : Int) (hr : remoteOf env = some s) (hm : (env.bodyLen : Int) ≠ s)
    (hnoskip : skipCheck fs0.dest (remoteOf env) = false) :
    (download_task task env fs0).fs.dest = fs0.dest
    ∧ (download_task task env fs0).fs.temp = none
    ∧ (download_task task env fs0).failure
        = some (task.region, task.url, mismatchMsg s env.bodyLen)
    ∧ (download_task task env fs0).unhandled = none
    ∧ (download_task task env fs0).downloaded = true := by
  rw [download_task_mismatch task env fs0 hnoskip hstale hopen s hr hm]
  exact ⟨rfl, rfl, rfl, rfl, rfl⟩

/-- Witness for C4's amended theorem at a concrete mismatching task. -/
theorem size_mismatch_outcome_w :
    (download_task ⟨"R", "u", "p"⟩ ⟨Except.ok (some "10"), none, none, 7, none⟩
        ⟨some 5, none, false⟩).fs.dest = some 5
    ∧ (download_task ⟨"R", "u", "p"⟩ ⟨Except.ok (some "10"), none, none, 7, none⟩
        ⟨some 5, none, false⟩).fs.temp = none
    ∧ (download_task ⟨"R", "u", "p"⟩ ⟨Except.ok (some "10"), none, none, 7, none⟩
        ⟨some 5, none, false⟩).failure = some ("R", "u", mismatchMsg 10 7)
    ∧ (download_task ⟨"R", "u", "p"⟩ ⟨Except.ok (some "10"), none, none, 7, none⟩
        ⟨some 5, none, false⟩).unhandled = none
    ∧ (download_task ⟨"R", "u", "p"⟩ ⟨Except.ok (some "10"), none, none, 7, none⟩
        ⟨some 5, none, false⟩).downloaded = true :=
  size_mismatch_outcome ⟨"R", "u", "p"⟩ ⟨Except.ok (some "10"), none, none, 7, none⟩
    ⟨some 5, none, false⟩ (Or.inl rfl) rfl 10 (by decide) (by decide) (by decide)

/-- Claim C6 (amended): after a first run of a task that records no
failure and escapes no exception, a second run with the same remote
records no failure either, and performs no new transfer except in the one
carved-out case: remote size unknown and a 0-byte completed file, which is
re-downloaded (successfully). -/
theorem second_run_skips (task : Task) (env : Env) (fs0 : FS)
    (h1 : (download_task task env fs0).failure = none)
    (h2 : (download_task task env fs0).unhandled = none) :
    (download_task task env (download_task task env fs0).fs).failure = none
    ∧ (download_task task env (download_task task env fs0).fs).unhandled = none
    ∧ ((download_task task env (download_task task env fs0).fs).downloaded = true →
        remoteOf env = none ∧ (download_task task env fs0).fs.dest = some 0) := by
  cases hs : skipCheck fs0.dest (remoteOf env)
  case true =>
    have hfs : (download_task task env fs0).fs = { fs0 with dirMade := true } := by
      rw [download_task_of_skip task env fs0 hs]
    rw [hfs]
    have hs2 : skipCheck ({ fs0 with dirMade := true } : FS).dest (remoteOf env) = true := hs
    rw [download_task_of_skip task env _ hs2]
    exact ⟨rfl, rfl, fun h => Bool.noConfusion h⟩
  case false =>
    have hstale : fs0.temp = none ∨ env.staleRemoveErr = none := by
      by_contra hc
      push_neg at hc
      obtain ⟨t, ht⟩ := Option.ne_none_iff_exists'.mp hc.1
      obtain ⟨e, he⟩ := Option.ne_none_iff_exists'.mp hc.2
      rw [download_task_stale_fault task env fs0 hs t e ht he] at h2
      exact Option.noConfusion h2
    cases ho : env.openErr with
    | some e =>
      rw [download_task_open_fault task env fs0 hs hstale e ho] at h1
      exact Option.noConfusion h1
    | none =>
      have hsucc :
          ∀ hok : remoteOf env = none ∨ remoteOf env = some (env.bodyLen : Int),
          env.renameErr = none →
          (download_task task env (download_task task env fs0).fs).failure = none
          ∧ (download_task task env (download_task task env fs0).fs).unhandled = none
          ∧ ((download_task task env (download_task task env fs0).fs).downloaded = true →
              remoteOf env = none ∧ (download_task task env fs0).fs.dest = some 0) := by
        intro hok hre
        have hfs : (download_task task env fs0).fs
            = ⟨some env.bodyLen, none, true⟩ := by
          rw [download_task_success task env fs0 hs hstale ho hok hre]
        rw [hfs]
        rcases hok with hr | hr
        · by_cases hbl : env.bodyLen = 0
          · have hs2 : skipCheck (⟨some env.bodyLen, none, true⟩ : FS).dest
                (remoteOf env) = false := by
              rw [hr, hbl]
              decide
            rw [download_task_success task env _ hs2 (Or.inl rfl) ho (Or.inl hr) hre]
            exact ⟨rfl, rfl, fun _ => ⟨hr, by rw [hbl]⟩⟩
          · have hs2 : skipCheck (⟨some env.bodyLen, none, true⟩ : FS).dest
                (remoteOf env) = true := by
              rw [hr]
              simp [skipCheck, Nat.pos_of_ne_zero hbl]
            rw [download_task_of_skip task env _ hs2]
            exact ⟨rfl, rfl, fun h => Bool.noConfusion h⟩
        · have hs2 : skipCheck (⟨some env.bodyLen, none, true⟩ : FS).dest
              (remoteOf env) = true := by
            rw [hr]
            simp [skipCheck]
          rw [download_task_of_skip task env _ hs2]
          exact ⟨rfl, rfl, fun h => Bool.noConfusion h⟩
      cases hr : remoteOf env with
      | some s =>
        by_cases hm : (env.bodyLen : Int) = s
        · cases hre : env.renameErr with
          | some e =>
            rw [download_task_rename_fault task env fs0 hs hstale ho
              (Or.inr (by rw [hm]; exact hr)) e hre] at h1
            exact Option.noConfusion h1
          | none =>
            simpa only [hr] using hsucc (Or.inr (by rw [hm]; exact hr)) hre
        · rw [download_task_mismatch task env fs0 hs hstale ho s hr hm] at h1
          exact Option.noConfusion h1
      | none =>
        cases hre : env.renameErr with
        | some e =>
          rw [download_task_rename_fault task env fs0 hs hstale ho (Or.inl hr) e hre] at h1
          exact Option.noConfusion h1
        | none =>
          simpa only [hr] using hsucc (Or.inl hr) hre

/-- Witness for C6's amended theorem: a completed 5-byte task is not
re-downloaded and records no failure on the second run. -/
theorem second_run_skips_w :
    (download_task ⟨"R", "u", "p"⟩ ⟨Except.ok (some "5"), none, none, 5, none⟩
        (download_task ⟨"R", "u", "p"⟩ ⟨Except.ok (some "5"), none, none, 5, none⟩
          ⟨none, none, false⟩).fs).failure = none
    ∧ (download_task ⟨"R", "u", "p"⟩ ⟨Except.ok (some "5"), none, none, 5, none⟩
        (download_task ⟨"R", "u", "p"⟩ ⟨Except.ok (some "5"), none, none, 5, none⟩
          ⟨none, none, false⟩).fs).unhandled = none :=
  ⟨(second_run_skips ⟨"R", "u", "p"⟩ ⟨Except.ok (some "5"), none, none, 5, none⟩
      ⟨none, none, false⟩ (by decide) (by decide)).1,
   (second_run_skips ⟨"R", "u", "p"⟩ ⟨Except.ok (some "5"), none, none, 5, none⟩
      ⟨none, none, false⟩ (by decide) (by decide)).2.1⟩

/-- Claim C1: the per-line resolution step used by `collect_tasks` on a
classified split file sends every non-blank line to exactly one outcome:
a single appended task when the tile name (text before the first comma)
is in the URL map, a single appended missing entry when it is not - never
both, never neither. -/
theorem collect_tasks_line_exactly_one (region dtype split output_root rawLine : String)
    (url_map : String → Option String) (acc : List Task × List (String × String))
    (h : pyStrip rawLine ≠ "") :
    (∀ url, url_map (takeBeforeComma (pyStrip rawLine)) = some url →
      processLine region dtype split url_map output_root acc rawLine
        = (acc.1 ++ [⟨region, url,
            outputPathFor output_root split dtype region (takeBeforeComma (pyStrip rawLine))⟩],
           acc.2))
    ∧ (url_map (takeBeforeComma (pyStrip rawLine)) = none →
      processLine region dtype split url_map output_root acc rawLine
        = (acc.1, acc.2 ++ [(region, takeBeforeComma (pyStrip rawLine))])) := by
  constructor
  · intro url hu
    simp [processLine, h, hu]
  · intro hu
    simp [processLine, h, hu]

/-- Witness for C1 on a concrete mapped line. -/
theorem collect_tasks_line_exactly_one_w :
    processLine "Alpha.1" "dsm" "train"
        (fun k => if k = "tile_001.tif" then some "http://host/tile_001.tif" else none)
        "out" ([], []) "tile_001.tif,extra"
      = ([⟨"Alpha.1", "http://host/tile_001.tif",
           outputPathFor "out" "train" "dsm" "Alpha.1" "tile_001.tif"⟩], []) :=
  (collect_tasks_line_exactly_one "Alpha.1" "dsm" "train" "out" "tile_001.tif,extra"
      (fun k => if k = "tile_001.tif" then some "http://host/tile_001.tif" else none)
      ([], []) (by decide)).1 "http://host/tile_001.tif" (by decide)

lemma singleton_suffix_iff (c : Char) (l : List Char) :
    [c] <:+ l ↔ l.getLast? = some c := by
  constructor
  · rintro ⟨t, rfl⟩
    exact List.getLast?_concat t
  · intro h
    have hne : l ≠ [] := by
      rintro rfl
      simp at h
    refine ⟨l.dropLast, ?_⟩
    have h3 : l.getLast hne = c := by
      rw [List.getLast?_eq_getLast l hne] at h
      exact Option.some.inj h
    rw [← h3]
    exact List.dropLast_append_getLast hne

lemma string_append_ne_empty (a b : String) (hb : b ≠ "") : a ++ b ≠ "" := by
  intro h
  apply hb
  have h2 := congrArg String.data h
  rw [String.data_append] at h2
  exact String.ext (List.append_eq_nil.mp h2).2

lemma pyEndsWith_append (a b : String) (hb : b ≠ "") :
    pyEndsWith (a ++ b) "/" = pyEndsWith b "/" := by
  unfold pyEndsWith
  rw [decide_eq_decide, String.data_append]
  have hc : ("/" : String).data = ['/'] := rfl
  rw [hc, singleton_suffix_iff, singleton_suffix_iff]
  have hbd : b.data ≠ [] := fun hn => hb (String.ext hn)
  rw [List.getLast?_append_of_ne_nil a.data hbd]

lemma joinPath_eq (a b : String) (hb : pyStartsWith b "/" = false) (ha : a ≠ "")
    (ha2 : pyEndsWith a "/" = false) : joinPath a b = a ++ "/" ++ b := by
  simp [joinPath, hb, ha, ha2]

lemma joinPath_chain (root : String) (ha : root ≠ "") (ha2 : pyEndsWith root "/" = false) :
    outputPathFor root "train" "dsm" "Alpha.1" "tile_001.tif"
      = root ++ "/train/dsm/Alpha1_tile_001.tif" := by
  unfold outputPathFor
  have hname : removeDots "Alpha.1" ++ "_" ++ "tile_001.tif" = "Alpha1_tile_001.tif" := by
    decide
  have h1 : joinPath root "train" = root ++ "/" ++ "train" :=
    joinPath_eq root "train" (by decide) ha ha2
  have hne1 : root ++ "/" ++ "train" ≠ "" := string_append_ne_empty _ _ (by decide)
  have he1 : pyEndsWith (root ++ "/" ++ "train") "/" = false := by
    rw [pyEndsWith_append (root ++ "/") "train" (by decide)]
    decide
  have h2 : joinPath (root ++ "/" ++ "train") "dsm"
      = root ++ "/" ++ "train" ++ "/" ++ "dsm" :=
    joinPath_eq _ "dsm" (by decide) hne1 he1
  have hne2 : root ++ "/" ++ "train" ++ "/" ++ "dsm" ≠ "" :=
    string_append_ne_empty _ _ (by decide)
  have he2 : pyEndsWith (root ++ "/" ++ "train" ++ "/" ++ "dsm") "/" = false := by
    rw [pyEndsWith_append (root ++ "/" ++ "train" ++ "/") "dsm" (by decide)]
    decide
  have h3 : joinPath (root ++ "/" ++ "train" ++ "/" ++ "dsm") "Alpha1_tile_001.tif"
      = root ++ "/" ++ "train" ++ "/" ++ "dsm" ++ "/" ++ "Alpha1_tile_001.tif" :=
    joinPath_eq _ "Alpha1_tile_001.tif" (by decide) hne2 he2
  rw [h1, h2, hname, h3]
  simp only [String.append_assoc]
  congr 1

lemma collect_alpha (root : String) :
    collect_tasks alphaModel root =
      ([⟨"Alpha.1", "http://host/tile_001.tif",
         outputPathFor root "train" "dsm" "Alpha.1" "tile_001.tif"⟩], []) := by
  rfl

/-- Claim C9: on the concrete scenario - region `Alpha.1`, URL map with
one tile, one `train.txt` line `tile_001.tif,extra` - resolution yields
exactly one task with the sanitized destination
`output_root/train/dsm/Alpha1_tile_001.tif` and no missing entries, for
any non-empty output root not ending in a slash. -/
theorem collect_tasks_alpha_scenario (root : String) (ha : root ≠ "")
    (ha2 : pyEndsWith root "/" = false) :
    collect_tasks alphaModel root =
      ([⟨"Alpha.1", "http://host/tile_001.tif",
         root ++ "/train/dsm/Alpha1_tile_001.tif"⟩], []) := by
  rw [collect_alpha root, joinPath_chain root ha ha2]

/-- Witness for C9 with output root "out". -/
theorem collect_tasks_alpha_scenario_w :
    collect_tasks alphaModel "out" =
      ([⟨"Alpha.1", "http://host/tile_001.tif",
         "out/train/dsm/Alpha1_tile_001.tif"⟩], []) :=
  collect_tasks_alpha_scenario "out" (by decide) (by decide)

end DownloadDataset
